import Mathlib

/-!
Shallow embedding of octograph's rate-resolution and reconciliation code
(`app/octopus_to_influxdb.py` and `app/agile_to_influxdb.py`) and proofs
about it.

Modelling conventions:
* Instants are `Int` minutes since an arbitrary epoch.
* A textual timestamp (the raw strings in the JSON records, used as Python
  dictionary keys) is a `TimeStr`: the instant it denotes plus a flag saying
  whether the text is the canonical ISO-8601 rendering that
  `maya.parse(x).iso8601()` produces.  Equality of `TimeStr` is textual
  equality, exactly as Python dictionary keys compare.
* Money and consumption amounts are `ℚ` (Python floats, arithmetic exact).
* A timezone is a pair of conversions between UTC instants and local
  wall-clock minutes: `toLocal` embeds `dt.datetime(to_timezone=zone)`
  rendering, `fromLocal` embeds parsing a local wall-clock datetime in the
  zone with `maya.when(text, timezone=zone)`.
* Python dictionaries built by comprehensions are association lists with
  last-entry-wins lookup (`dictGet` / `dictGetOpt` below embed `.get`).
-/

/-- A textual timestamp as it appears in a record.  `instant` is the UTC
instant it denotes (minutes since epoch); `canonical` is true exactly when
the text is the canonical ISO-8601 rendering of that instant. -/
structure TimeStr where
  instant : Int
  canonical : Bool
deriving DecidableEq

/-- Embeds `maya.parse(s)` compared as an instant: the instant a textual
timestamp denotes. -/
def parse (s : TimeStr) : Int := s.instant

/-- Embeds `maya.parse(s).iso8601()` as a text: the canonical rendering of an
instant. -/
def iso8601 (t : Int) : TimeStr := ⟨t, true⟩

/-- A timezone, abstracted as its two conversions.  `toLocal` maps a UTC
instant to local wall-clock minutes; `fromLocal` maps a local wall-clock
datetime (in minutes) back to the UTC instant `maya.when` parses it to. -/
structure Zone where
  toLocal : Int → Int
  fromLocal : Int → Int

/-- One dynamic-price entry, as retrieved (`valid_from`, `valid_to`,
`value_inc_vat` keys of the raw record). -/
structure RatePoint where
  valid_from : TimeStr
  valid_to : TimeStr
  value_inc_vat : ℚ
deriving DecidableEq

/-- One consumption reading, as retrieved (`interval_start`, `interval_end`,
`consumption` keys of the raw record). -/
structure Measurement where
  interval_start : TimeStr
  interval_end : TimeStr
  consumption : ℚ
deriving DecidableEq

/-- The `rate_data` dictionary for one series.  The electricity and gas
dictionaries of the source are collected into one record; the gas
dictionary's missing electricity keys are never read because
`active_rate_field` returns `unit_rate` first for the gas series.
`unit_rate_low_start` and `unit_rate_low_end` are the configured clock
times in minutes past local midnight. -/
structure RateData where
  standing_charge : ℚ
  unit_rate_high : ℚ
  unit_rate_low : ℚ
  unit_rate_low_start : Int
  unit_rate_low_end : Int
  unit_rate_low_zone : Option Zone
  agile_standing_charge : ℚ
  agile_unit_rates : List RatePoint
  unit_rate : ℚ

/-- `rate_data[key]` for the three keys `active_rate_field` can return (any
other key would be a Python `KeyError`, which never happens). -/
def rateValue (rd : RateData) (key : String) : ℚ :=
  if key = "unit_rate" then rd.unit_rate
  else if key = "unit_rate_low" then rd.unit_rate_low
  else rd.unit_rate_high

/-- A Python dict built by a comprehension over `pairs` (later entries
overwrite earlier ones), queried with `.get(key, dflt)`. -/
def dictGet (pairs : List (TimeStr × ℚ)) (key : TimeStr) (dflt : ℚ) : ℚ :=
  match pairs.reverse.find? (fun kv => kv.1 == key) with
  | some kv => kv.2
  | none => dflt

/-- A Python dict built by a comprehension over `pairs`, queried with
`.get(key, None)`. -/
def dictGetOpt (pairs : List (TimeStr × ℚ)) (key : TimeStr) : Option ℚ :=
  Option.map (fun kv => kv.2) (pairs.reverse.find? (fun kv => kv.1 == key))

/-- The `agile_rates_to` dict comprehension: raw `valid_to` text paired with
the price.  Note the keys are the raw texts, not normalized. -/
def agileRatesTo (sched : List RatePoint) : List (TimeStr × ℚ) :=
  sched.map (fun p => (p.valid_to, p.value_inc_vat))

/-- The `agile_rates_from` / `agile_rates_with_from_dates` dict
comprehensions: raw `valid_from` text paired with the price. -/
def agileRatesFrom (sched : List RatePoint) : List (TimeStr × ℚ) :=
  sched.map (fun p => (p.valid_from, p.value_inc_vat))

/-- The record handed to `connection.write_points` by
`octopus_to_influxdb.store_series`: measurement name, the two tags, the
timestamp (the raw `interval_end` text) and the fields dict (association
list; its keys are pairwise distinct by construction). -/
structure OutputPoint where
  measurement : String
  active_rate : String
  time_of_day : Int
  time : TimeStr
  fields : List (String × ℚ)
deriving DecidableEq

namespace Octopus

/-- `active_rate_field` from `octopus_to_influxdb.store_series`: gas is a
flat `unit_rate`; electricity without a configured low zone is always
`unit_rate_high`; otherwise the low band for the interval start's calendar
day in the configured zone is built from the configured clock times and
membership is tested.  `maya.MayaInterval.__contains__` is the half-open
test `start <= t < end`. -/
def active_rate_field (series : String) (rd : RateData) (m : Measurement) :
    String :=
  if series = "gas" then "unit_rate"
  else
    match rd.unit_rate_low_zone with
    | none => "unit_rate_high"
    | some z =>
      let measurement_at := parse m.interval_start
      let day := (z.toLocal measurement_at).fdiv 1440
      let low_start := z.fromLocal (day * 1440 + rd.unit_rate_low_start)
      let low_end := z.fromLocal (day * 1440 + rd.unit_rate_low_end)
      if low_start ≤ measurement_at ∧ measurement_at < low_end then
        "unit_rate_low"
      else "unit_rate_high"

/-- `fields_for_measurement` from `octopus_to_influxdb.store_series`.  The
base dict always holds `consumption`, `cost` and `total_cost`; when the
agile schedule is non-empty, `fields.update` adds the three agile keys
(all six keys are distinct, so append models the update). -/
def fields_for_measurement (series : String) (rd : RateData)
    (m : Measurement) : List (String × ℚ) :=
  let consumption := m.consumption
  let rate := active_rate_field series rd m
  let rate_cost := rateValue rd rate
  let cost := consumption * rate_cost
  let standing_charge := rd.standing_charge / 48
  let fields := [("consumption", consumption), ("cost", cost),
    ("total_cost", cost + standing_charge)]
  if rd.agile_unit_rates ≠ [] then
    let agile_standing_charge := rd.agile_standing_charge / 48
    let agile_unit_rate :=
      dictGet (agileRatesTo rd.agile_unit_rates)
        (iso8601 (parse m.interval_end)) (rateValue rd rate)
    let agile_cost := agile_unit_rate * consumption
    fields ++ [("agile_rate", agile_unit_rate), ("agile_cost", agile_cost),
      ("agile_total_cost", agile_cost + agile_standing_charge)]
  else fields

/-- `tags_for_measurement` from `octopus_to_influxdb.store_series`.  The
`time_of_day` tag is `period.datetime().strftime(time_format)` where
`maya.MayaDT.datetime()` with no argument renders in UTC, so it is the
minutes past UTC midnight of the interval end instant. -/
def tags_for_measurement (series : String) (rd : RateData)
    (m : Measurement) : String × Int :=
  (active_rate_field series rd m, (parse m.interval_end).emod 1440)

/-- One element of the `measurements` list comprehension. -/
def measurement_point (series : String) (rd : RateData) (m : Measurement) :
    OutputPoint where
  measurement := series
  active_rate := (tags_for_measurement series rd m).1
  time_of_day := (tags_for_measurement series rd m).2
  time := m.interval_end
  fields := fields_for_measurement series rd m

/-- The pure core of `octopus_to_influxdb.store_series`: the list handed to
`connection.write_points`. -/
def store_series (series : String) (rd : RateData)
    (metrics : List Measurement) : List OutputPoint :=
  metrics.map (measurement_point series rd)

end Octopus

/-- The record built by `agile_to_influxdb.store_series`: its `tags` dict is
empty, its time is the raw `valid_to` text, and its fields are
`agile_rate_prev` and `agile_rate_next`, either of which may be `None`. -/
structure AgilePoint where
  measurement : String
  time : TimeStr
  agile_rate_prev : Option ℚ
  agile_rate_next : Option ℚ
deriving DecidableEq

namespace Agile

/-- `fields_for_measurement` from `agile_to_influxdb.store_series`: both
fields are looked up in the dict keyed by the raw `valid_from` texts, with
normalized lookup keys and `None` as the default. -/
def fields_for_measurement (agile_rates : List RatePoint) (m : RatePoint) :
    Option ℚ × Option ℚ :=
  let valid_from_iso := iso8601 (parse m.valid_from)
  let valid_to_iso := iso8601 (parse m.valid_to)
  (dictGetOpt (agileRatesFrom agile_rates) valid_from_iso,
   dictGetOpt (agileRatesFrom agile_rates) valid_to_iso)

/-- One element of the `measurements` list comprehension of
`agile_to_influxdb.store_series`. -/
def rate_point (series : String) (agile_rates : List RatePoint)
    (m : RatePoint) : AgilePoint where
  measurement := series
  time := m.valid_to
  agile_rate_prev := (fields_for_measurement agile_rates m).1
  agile_rate_next := (fields_for_measurement agile_rates m).2

/-- The pure core of `agile_to_influxdb.store_series`: raises a
`ClickException` on an empty schedule (before anything is written),
otherwise the list handed to `connection.write_points`. -/
def store_series (series : String) (agile_rates : List RatePoint) :
    Except String (List AgilePoint) :=
  if agile_rates = [] then Except.error "No Agile rate data to store"
  else Except.ok (agile_rates.map (rate_point series agile_rates))

end Agile

/-- Modelled from the spec: the "local HH:MM" rendering of an instant in
a zone (minutes past local midnight), used only to compare the spec's
wording for the `time_of_day` tag against the code's rendering. -/
def specLocalClock (z : Zone) (t : Int) : Int := (z.toLocal t).emod 1440

/-- A fixed-offset zone one hour ahead of UTC (e.g. Europe/London in summer). -/
def zonePlus60 : Zone := ⟨fun t => t + 60, fun t => t - 60⟩

/-- A rate point whose boundary texts are non-canonical renderings of minutes 0 and 30. -/
def rpNonCanonTo : RatePoint := ⟨⟨0, false⟩, ⟨30, false⟩, 5⟩

/-- A rate point for minutes 0 to 30 with canonically rendered boundary texts. -/
def rpCanon : RatePoint := ⟨⟨0, true⟩, ⟨30, true⟩, 5⟩

/-- A well-formed half-hour consumption interval from minute 0 to minute 30. -/
def mHalfHour : Measurement := ⟨⟨0, true⟩, ⟨30, true⟩, 1⟩

/-- Electricity tariff with no low zone and one agile entry with non-canonical texts. -/
def rdNonCanon : RateData :=
  { standing_charge := 0, unit_rate_high := 3, unit_rate_low := 1,
    unit_rate_low_start := 0, unit_rate_low_end := 420,
    unit_rate_low_zone := none, agile_standing_charge := 0,
    agile_unit_rates := [rpNonCanonTo], unit_rate := 2 }

/-- A rate point whose valid_from text is a non-canonical rendering of minute 0. -/
def rpNonCanonFrom : RatePoint := ⟨⟨0, false⟩, ⟨30, true⟩, 7⟩

/-- A canonical rate point for minutes 30 to 60. -/
def rpA : RatePoint := ⟨⟨30, true⟩, ⟨60, true⟩, 9⟩

/-- A canonical rate point for minutes 0 to 30, ending where rpA starts. -/
def rpB : RatePoint := ⟨⟨0, true⟩, ⟨30, true⟩, 4⟩

/-- Electricity tariff whose low zone is one hour ahead of UTC. -/
def rdSummer : RateData :=
  { standing_charge := 0, unit_rate_high := 3, unit_rate_low := 1,
    unit_rate_low_start := 0, unit_rate_low_end := 420,
    unit_rate_low_zone := some zonePlus60, agile_standing_charge := 0,
    agile_unit_rates := [], unit_rate := 2 }

/-- A half-hour interval ending at minute 1410, i.e. 23:30 UTC, 00:30 local in zonePlus60. -/
def mLateEvening : Measurement := ⟨⟨1380, true⟩, ⟨1410, true⟩, 1⟩

/-- Tariff whose agile schedule holds an entry with valid_to equal to valid_from. -/
def rdMalformedAgile : RateData :=
  { standing_charge := 0, unit_rate_high := 3, unit_rate_low := 1,
    unit_rate_low_start := 0, unit_rate_low_end := 420,
    unit_rate_low_zone := none, agile_standing_charge := 0,
    agile_unit_rates := [⟨⟨30, true⟩, ⟨30, true⟩, 5⟩], unit_rate := 2 }

/-- A malformed consumption interval lasting 60 minutes instead of 30. -/
def mHourLong : Measurement := ⟨⟨0, true⟩, ⟨60, true⟩, 1⟩

/-- Tariff with a non-empty agile schedule with canonical texts. -/
def rdAgileCanon : RateData :=
  { standing_charge := 24, unit_rate_high := 3, unit_rate_low := 1,
    unit_rate_low_start := 0, unit_rate_low_end := 420,
    unit_rate_low_zone := none, agile_standing_charge := 12,
    agile_unit_rates := [rpCanon], unit_rate := 2 }

/-- Electricity tariff with a low band from 00:00 to 07:00 local in zonePlus60. -/
def rdLowBand : RateData :=
  { standing_charge := 0, unit_rate_high := 10, unit_rate_low := 2,
    unit_rate_low_start := 0, unit_rate_low_end := 420,
    unit_rate_low_zone := some zonePlus60, agile_standing_charge := 0,
    agile_unit_rates := [], unit_rate := 0 }

/-- A half-hour interval starting at minute 90, inside rdLowBand low band. -/
def mNightReading : Measurement := ⟨⟨90, true⟩, ⟨120, true⟩, 1⟩

/-- Tariff whose agile schedule covers minutes 0 to 30 only. -/
def rdDstGap : RateData :=
  { standing_charge := 24, unit_rate_high := 3, unit_rate_low := 1,
    unit_rate_low_start := 0, unit_rate_low_end := 420,
    unit_rate_low_zone := none, agile_standing_charge := 12,
    agile_unit_rates := [rpCanon], unit_rate := 2 }

/-- A half-hour interval ending at minute 90, with no matching agile entry. -/
def mDstGap : Measurement := ⟨⟨60, true⟩, ⟨90, true⟩, 1⟩

/-! Helper lemmas about the dictionary and field-list models. -/

lemma find_key_unique (l : List (TimeStr × ℚ)) (k : TimeStr) (v : ℚ)
    (hmem : (k, v) ∈ l) (huniq : ∀ kv ∈ l, kv.1 = k → kv = (k, v)) :
    l.find? (fun kv => kv.1 == k) = some (k, v) := by
  induction l with
  | nil => cases hmem
  | cons a t ih =>
    by_cases h : a.1 = k
    · have ha : a = (k, v) := huniq a (List.mem_cons_self a t) h
      subst ha
      exact List.find?_cons_of_pos _ (by simp)
    · have hmem2 : (k, v) ∈ t := by
        cases List.mem_cons.mp hmem with
        | inl h2 => exact absurd (congrArg Prod.fst h2).symm h
        | inr h2 => exact h2
      rw [List.find?_cons_of_neg _ (by simpa using h)]
      exact ih hmem2 (fun kv hkv => huniq kv (List.mem_cons_of_mem a hkv))

lemma dictGet_hit (l : List (TimeStr × ℚ)) (k : TimeStr) (v : ℚ) (d : ℚ)
    (hmem : (k, v) ∈ l) (huniq : ∀ kv ∈ l, kv.1 = k → kv = (k, v)) :
    dictGet l k d = v := by
  unfold dictGet
  rw [find_key_unique l.reverse k v (List.mem_reverse.mpr hmem)
    (fun kv hkv => huniq kv (List.mem_reverse.mp hkv))]

lemma dictGetOpt_hit (l : List (TimeStr × ℚ)) (k : TimeStr) (v : ℚ)
    (hmem : (k, v) ∈ l) (huniq : ∀ kv ∈ l, kv.1 = k → kv = (k, v)) :
    dictGetOpt l k = some v := by
  unfold dictGetOpt
  rw [find_key_unique l.reverse k v (List.mem_reverse.mpr hmem)
    (fun kv hkv => huniq kv (List.mem_reverse.mp hkv))]
  rfl

lemma dictGet_miss (l : List (TimeStr × ℚ)) (k : TimeStr) (d : ℚ)
    (h : ∀ kv ∈ l, kv.1 ≠ k) : dictGet l k d = d := by
  unfold dictGet
  rw [List.find?_eq_none.mpr (fun kv hkv => by
    simpa using h kv (List.mem_reverse.mp hkv))]

lemma dictGetOpt_miss (l : List (TimeStr × ℚ)) (k : TimeStr)
    (h : ∀ kv ∈ l, kv.1 ≠ k) : dictGetOpt l k = none := by
  unfold dictGetOpt
  rw [List.find?_eq_none.mpr (fun kv hkv => by
    simpa using h kv (List.mem_reverse.mp hkv))]
  rfl

lemma fields_lookup_consumption (series : String) (rd : RateData) (m : Measurement) :
    (Octopus.fields_for_measurement series rd m).lookup "consumption" =
      some m.consumption := by
  unfold Octopus.fields_for_measurement
  by_cases h : rd.agile_unit_rates = [] <;> simp [h, List.lookup]

lemma fields_lookup_cost (series : String) (rd : RateData) (m : Measurement) :
    (Octopus.fields_for_measurement series rd m).lookup "cost" =
      some (m.consumption * rateValue rd (Octopus.active_rate_field series rd m)) := by
  unfold Octopus.fields_for_measurement
  by_cases h : rd.agile_unit_rates = [] <;> simp [h, List.lookup]

lemma fields_lookup_total_cost (series : String) (rd : RateData) (m : Measurement) :
    (Octopus.fields_for_measurement series rd m).lookup "total_cost" =
      some (m.consumption * rateValue rd (Octopus.active_rate_field series rd m)
        + rd.standing_charge / 48) := by
  unfold Octopus.fields_for_measurement
  by_cases h : rd.agile_unit_rates = [] <;> simp [h, List.lookup]

lemma fields_lookup_agile_rate (series : String) (rd : RateData) (m : Measurement)
    (h : rd.agile_unit_rates ≠ []) :
    (Octopus.fields_for_measurement series rd m).lookup "agile_rate" =
      some (dictGet (agileRatesTo rd.agile_unit_rates)
        (iso8601 (parse m.interval_end))
        (rateValue rd (Octopus.active_rate_field series rd m))) := by
  unfold Octopus.fields_for_measurement
  simp [h, List.lookup]

lemma fields_lookup_agile_cost (series : String) (rd : RateData) (m : Measurement)
    (h : rd.agile_unit_rates ≠ []) :
    (Octopus.fields_for_measurement series rd m).lookup "agile_cost" =
      some (dictGet (agileRatesTo rd.agile_unit_rates)
        (iso8601 (parse m.interval_end))
        (rateValue rd (Octopus.active_rate_field series rd m)) * m.consumption) := by
  unfold Octopus.fields_for_measurement
  simp [h, List.lookup]

lemma fields_lookup_agile_total_cost (series : String) (rd : RateData)
    (m : Measurement) (h : rd.agile_unit_rates ≠ []) :
    (Octopus.fields_for_measurement series rd m).lookup "agile_total_cost" =
      some (dictGet (agileRatesTo rd.agile_unit_rates)
        (iso8601 (parse m.interval_end))
        (rateValue rd (Octopus.active_rate_field series rd m)) * m.consumption
        + rd.agile_standing_charge / 48) := by
  unfold Octopus.fields_for_measurement
  simp [h, List.lookup]

lemma agile_fields_prev (sched : List RatePoint) (m : RatePoint) :
    (Agile.fields_for_measurement sched m).1 =
      dictGetOpt (agileRatesFrom sched) (iso8601 (parse m.valid_from)) := rfl

lemma agile_fields_next (sched : List RatePoint) (m : RatePoint) :
    (Agile.fields_for_measurement sched m).2 =
      dictGetOpt (agileRatesFrom sched) (iso8601 (parse m.valid_to)) := rfl

lemma dictGetOpt_from_canonical (sched : List RatePoint) (p : RatePoint)
    (t : Int) (hp : p ∈ sched)
    (hcanon : ∀ r ∈ sched, r.valid_from.canonical = true)
    (hdist : ∀ r1 ∈ sched, ∀ r2 ∈ sched,
      parse r1.valid_from = parse r2.valid_from → r1 = r2)
    (ht : t = parse p.valid_from) :
    dictGetOpt (agileRatesFrom sched) (iso8601 t) = some p.value_inc_vat := by
  have hpf : p.valid_from = iso8601 t := by
    show p.valid_from = ⟨t, true⟩
    rw [ht, ← hcanon p hp]
    rfl
  rw [← hpf]
  apply dictGetOpt_hit
  · exact List.mem_map.mpr ⟨p, hp, rfl⟩
  · intro kv hkv hk1
    obtain ⟨q, hq, rfl⟩ := List.mem_map.mp hkv
    rw [hdist q hq p hp (congrArg parse hk1)]

/-! Claim theorems. -/

/-- C1: for every consumption interval, the emitted fields satisfy cost = consumption times the resolved static unit price exactly, and total_cost = cost + standing_charge / 48. -/
theorem C1_cost_and_total_cost (series : String) (rd : RateData) (m : Measurement) :
    (Octopus.fields_for_measurement series rd m).lookup "cost" =
      some (m.consumption * rateValue rd (Octopus.active_rate_field series rd m)) ∧
    (Octopus.fields_for_measurement series rd m).lookup "total_cost" =
      some (m.consumption * rateValue rd (Octopus.active_rate_field series rd m)
        + rd.standing_charge / 48) :=
  ⟨fields_lookup_cost series rd m, fields_lookup_total_cost series rd m⟩

/-- C2 counterexample: the Interval Index is keyed by the raw schedule texts, so for a schedule entry whose valid_to text is a non-canonical rendering of the consumption interval end instant, the normalized lookup misses and falls back to the static rate (3), even though an entry for that very instant (with value 5) is indexed. -/
theorem C2_counterexample :
    (∃ p ∈ rdNonCanon.agile_unit_rates,
      parse p.valid_to = parse mHalfHour.interval_end) ∧
    (Octopus.fields_for_measurement "electricity" rdNonCanon mHalfHour).lookup
      "agile_rate" = some 3 ∧
    (∀ p ∈ rdNonCanon.agile_unit_rates, p.value_inc_vat = 5) ∧ (3 : ℚ) ≠ 5 := by
  decide

/-- C2 (amended): only the lookup key is normalized to the canonical ISO-8601 rendering; the index keys the raw schedule texts. When the schedule valid_to texts are already canonically rendered and its valid_to instants are distinct, a lookup keyed by any textual representation of a scheduled boundary instant finds that entry price. -/
theorem C2_amended_lookup_normalization (sched : List RatePoint) (p : RatePoint)
    (k : TimeStr) (d : ℚ) (hp : p ∈ sched)
    (hcanon : ∀ q ∈ sched, q.valid_to.canonical = true)
    (hdist : ∀ q ∈ sched, parse q.valid_to = parse p.valid_to → q = p)
    (hk : parse k = parse p.valid_to) :
    dictGet (agileRatesTo sched) (iso8601 (parse k)) d = p.value_inc_vat := by
  have hpt : p.valid_to = iso8601 (parse k) := by
    show p.valid_to = ⟨parse k, true⟩
    rw [hk, ← hcanon p hp]
    rfl
  rw [← hpt]
  apply dictGet_hit
  · exact List.mem_map.mpr ⟨p, hp, rfl⟩
  · intro kv hkv hk1
    obtain ⟨q, hq, rfl⟩ := List.mem_map.mp hkv
    rw [hdist q hq (congrArg parse hk1)]

/-- C2 witness: a lookup keyed by a non-canonical rendering of minute 30 finds the canonical entry for minute 30. -/
theorem C2_amended_witness :
    dictGet (agileRatesTo [rpCanon]) (iso8601 (parse (⟨30, false⟩ : TimeStr))) 7 = 5 :=
  C2_amended_lookup_normalization [rpCanon] rpCanon ⟨30, false⟩ 7 (by decide)
    (by decide) (by decide) (by decide)

/-- C3: with a low zone configured, the Time-of-Use resolver classifies an electricity interval as low exactly when its start instant lies in the half-open band from low_start (inclusive) to low_end (exclusive), both built by combining the start calendar day in the zone with the configured clock times; otherwise it is high. -/
theorem C3_time_of_use_band (rd : RateData) (z : Zone) (m : Measurement)
    (hz : rd.unit_rate_low_zone = some z) :
    Octopus.active_rate_field "electricity" rd m =
      (if z.fromLocal (((z.toLocal (parse m.interval_start)).fdiv 1440) * 1440
            + rd.unit_rate_low_start) ≤ parse m.interval_start ∧
          parse m.interval_start <
            z.fromLocal (((z.toLocal (parse m.interval_start)).fdiv 1440) * 1440
              + rd.unit_rate_low_end)
        then "unit_rate_low" else "unit_rate_high") := by
  unfold Octopus.active_rate_field
  rw [hz]
  simp

/-- C3 witness: a concrete interval starting inside the configured low band. -/
theorem C3_time_of_use_band_witness :
    Octopus.active_rate_field "electricity" rdLowBand mNightReading =
      (if zonePlus60.fromLocal
            (((zonePlus60.toLocal (parse mNightReading.interval_start)).fdiv 1440)
                * 1440 + rdLowBand.unit_rate_low_start) ≤
          parse mNightReading.interval_start ∧
          parse mNightReading.interval_start <
            zonePlus60.fromLocal
              (((zonePlus60.toLocal (parse mNightReading.interval_start)).fdiv
                  1440) * 1440 + rdLowBand.unit_rate_low_end)
        then "unit_rate_low" else "unit_rate_high") :=
  C3_time_of_use_band rdLowBand zonePlus60 mNightReading rfl

/-- C4: when dynamic pricing is configured and no agile entry valid_to instant equals the interval end instant, the agile_rate field falls back to the just-resolved static unit price without any error, and the output is a pointwise map, so each interval point is a function of that interval alone and is unaffected by the miss. -/
theorem C4_dst_fallback (series : String) (rd : RateData) (m : Measurement)
    (hagile : rd.agile_unit_rates ≠ [])
    (hmiss : ∀ p ∈ rd.agile_unit_rates, parse p.valid_to ≠ parse m.interval_end) :
    (Octopus.fields_for_measurement series rd m).lookup "agile_rate" =
      some (rateValue rd (Octopus.active_rate_field series rd m)) ∧
    ∀ metrics : List Measurement,
      Octopus.store_series series rd metrics =
        metrics.map (Octopus.measurement_point series rd) := by
  refine ⟨?_, fun metrics => rfl⟩
  rw [fields_lookup_agile_rate series rd m hagile, dictGet_miss]
  intro kv hkv
  obtain ⟨p, hp, rfl⟩ := List.mem_map.mp hkv
  intro hk
  exact hmiss p hp (by simpa [parse, iso8601] using congrArg TimeStr.instant hk)

/-- C4 witness: an interval ending at minute 90 against a schedule covering only minutes 0 to 30 falls back to the static high rate. -/
theorem C4_dst_fallback_witness :
    (Octopus.fields_for_measurement "electricity" rdDstGap mDstGap).lookup
        "agile_rate" =
      some (rateValue rdDstGap
        (Octopus.active_rate_field "electricity" rdDstGap mDstGap)) ∧
    Octopus.store_series "electricity" rdDstGap [mDstGap] =
      [mDstGap].map (Octopus.measurement_point "electricity" rdDstGap) :=
  ⟨(C4_dst_fallback "electricity" rdDstGap mDstGap (by decide) (by decide)).1,
   (C4_dst_fallback "electricity" rdDstGap mDstGap (by decide) (by decide)).2
     [mDstGap]⟩

/-- C5 counterexample: a rate point whose valid_from text is a non-canonical rendering yields an emitted point at its valid_to whose preceding-half-hour field is None rather than the point value, because the dict keys are the raw texts while the lookup key is normalized. -/
theorem C5_counterexample :
    Agile.store_series "electricity" [rpNonCanonFrom] = Except.ok
      [{ measurement := "electricity", time := ⟨30, true⟩,
         agile_rate_prev := none, agile_rate_next := none }] ∧
    (none : Option ℚ) ≠ some rpNonCanonFrom.value_inc_vat := ⟨rfl, by decide⟩

/-- C5 (amended): in rate-only mode, when the schedule valid_from texts are canonically rendered and its valid_from instants are distinct, the point emitted for a rate point with period T0 to T1 and value V (keyed at T1) carries agile_rate_prev = V, and the point emitted for a rate point ending at T0, when one exists, carries agile_rate_next = V. -/
theorem C5_rate_only_fields (series : String) (sched : List RatePoint)
    (p q : RatePoint) (hp : p ∈ sched) (hq : q ∈ sched)
    (hcanon : ∀ r ∈ sched, r.valid_from.canonical = true)
    (hdist : ∀ r1 ∈ sched, ∀ r2 ∈ sched,
      parse r1.valid_from = parse r2.valid_from → r1 = r2)
    (hqp : parse q.valid_to = parse p.valid_from) :
    Agile.store_series series sched =
      Except.ok (sched.map (Agile.rate_point series sched)) ∧
    Agile.rate_point series sched p ∈ sched.map (Agile.rate_point series sched) ∧
    (Agile.rate_point series sched p).time = p.valid_to ∧
    (Agile.rate_point series sched p).agile_rate_prev = some p.value_inc_vat ∧
    Agile.rate_point series sched q ∈ sched.map (Agile.rate_point series sched) ∧
    (Agile.rate_point series sched q).time = q.valid_to ∧
    (Agile.rate_point series sched q).agile_rate_next = some p.value_inc_vat := by
  have hne : sched ≠ [] := by intro h; rw [h] at hp; cases hp
  refine ⟨by unfold Agile.store_series; rw [if_neg hne],
    List.mem_map.mpr ⟨p, hp, rfl⟩, rfl, ?_,
    List.mem_map.mpr ⟨q, hq, rfl⟩, rfl, ?_⟩
  · show (Agile.fields_for_measurement sched p).1 = some p.value_inc_vat
    rw [agile_fields_prev]
    exact dictGetOpt_from_canonical sched p _ hp hcanon hdist rfl
  · show (Agile.fields_for_measurement sched q).2 = some p.value_inc_vat
    rw [agile_fields_next]
    exact dictGetOpt_from_canonical sched p _ hp hcanon hdist hqp

/-- C5 witness: two adjacent canonical rate points; the later point carries its own value as prev and the earlier point carries it as next. -/
theorem C5_rate_only_fields_witness :
    Agile.store_series "electricity" [rpA, rpB] =
      Except.ok ([rpA, rpB].map (Agile.rate_point "electricity" [rpA, rpB])) ∧
    Agile.rate_point "electricity" [rpA, rpB] rpA ∈
      [rpA, rpB].map (Agile.rate_point "electricity" [rpA, rpB]) ∧
    (Agile.rate_point "electricity" [rpA, rpB] rpA).time = rpA.valid_to ∧
    (Agile.rate_point "electricity" [rpA, rpB] rpA).agile_rate_prev =
      some rpA.value_inc_vat ∧
    Agile.rate_point "electricity" [rpA, rpB] rpB ∈
      [rpA, rpB].map (Agile.rate_point "electricity" [rpA, rpB]) ∧
    (Agile.rate_point "electricity" [rpA, rpB] rpB).time = rpB.valid_to ∧
    (Agile.rate_point "electricity" [rpA, rpB] rpB).agile_rate_next =
      some rpA.value_inc_vat :=
  C5_rate_only_fields "electricity" [rpA, rpB] rpA rpB (by decide) (by decide)
    (by decide) (by decide) (by decide)

/-- C6 counterexample: with a zone one hour ahead of UTC, the emitted time_of_day tag of an interval ending at 23:30 UTC is the UTC rendering (minute 1410 of the UTC day), not the local-clock rendering (minute 30 of the local day). -/
theorem C6_counterexample :
    (Octopus.store_series "electricity" rdSummer [mLateEvening]).map
      OutputPoint.time_of_day = [1410] ∧
    specLocalClock zonePlus60 (parse mLateEvening.interval_end) = 30 ∧
    (1410 : Int) ≠ 30 := by decide

/-- C6 (amended): every consumption interval assembled point is emitted, with time set to the interval raw end timestamp, active_rate set to the resolved band (unit_rate for gas), and time_of_day set to the UTC, not local, HH:MM rendering of the end instant. -/
theorem C6_amended_point_assembly (series : String) (rd : RateData)
    (m : Measurement) (metrics : List Measurement) (hm : m ∈ metrics) :
    Octopus.measurement_point series rd m ∈
      Octopus.store_series series rd metrics ∧
    (Octopus.measurement_point series rd m).time = m.interval_end ∧
    (Octopus.measurement_point series rd m).active_rate =
      Octopus.active_rate_field series rd m ∧
    (Octopus.measurement_point series rd m).time_of_day =
      (parse m.interval_end).emod 1440 :=
  ⟨List.mem_map.mpr ⟨m, hm, rfl⟩, rfl, rfl, rfl⟩

/-- C6 witness: the point for a concrete interval under a one-hour-ahead zone. -/
theorem C6_amended_witness :
    Octopus.measurement_point "electricity" rdSummer mLateEvening ∈
      Octopus.store_series "electricity" rdSummer [mLateEvening] ∧
    (Octopus.measurement_point "electricity" rdSummer mLateEvening).time =
      mLateEvening.interval_end ∧
    (Octopus.measurement_point "electricity" rdSummer mLateEvening).active_rate =
      Octopus.active_rate_field "electricity" rdSummer mLateEvening ∧
    (Octopus.measurement_point "electricity" rdSummer mLateEvening).time_of_day =
      (parse mLateEvening.interval_end).emod 1440 :=
  C6_amended_point_assembly "electricity" rdSummer mLateEvening [mLateEvening]
    (by decide)

/-- C7: rate-only reconciliation with an empty schedule fails with the fatal "No Agile rate data to store" error, so nothing is handed to the storage writer. -/
theorem C7_rate_only_empty_schedule_fatal (series : String) :
    Agile.store_series series [] = Except.error "No Agile rate data to store" := rfl

/-- C8 counterexample: a batch with a 60-minute consumption interval and a rate entry with valid_to equal to valid_from is not rejected: store_series still emits a point computed from it. -/
theorem C8_counterexample :
    parse mHourLong.interval_end - parse mHourLong.interval_start ≠ 30 ∧
    (∃ p ∈ rdMalformedAgile.agile_unit_rates,
      parse p.valid_to ≤ parse p.valid_from) ∧
    Octopus.store_series "electricity" rdMalformedAgile [mHourLong] ≠ [] := by
  decide

/-- C8 (amended): the reconciliation core performs no validation of interval durations or rate-entry ordering; a batch containing malformed entries is processed like any other, emitting one point per interval. -/
theorem C8_amended_no_validation (series : String) (rd : RateData)
    (metrics : List Measurement)
    (_hmal : (∃ m ∈ metrics, parse m.interval_end - parse m.interval_start ≠ 30) ∨
      ∃ p ∈ rd.agile_unit_rates, parse p.valid_to ≤ parse p.valid_from) :
    Octopus.store_series series rd metrics =
      metrics.map (Octopus.measurement_point series rd) ∧
    (Octopus.store_series series rd metrics).length = metrics.length :=
  ⟨rfl, List.length_map metrics (Octopus.measurement_point series rd)⟩

/-- C8 witness: the malformed concrete batch is processed, one point per interval. -/
theorem C8_amended_witness :
    Octopus.store_series "electricity" rdMalformedAgile [mHourLong] =
      [mHourLong].map (Octopus.measurement_point "electricity" rdMalformedAgile) ∧
    (Octopus.store_series "electricity" rdMalformedAgile [mHourLong]).length =
      [mHourLong].length :=
  C8_amended_no_validation "electricity" rdMalformedAgile [mHourLong]
    (Or.inl (by decide))

/-- C9: the reconciler emits exactly one point per consumption interval, and an empty consumption list yields an empty point list without error. -/
theorem C9_one_point_per_interval (series : String) (rd : RateData)
    (metrics : List Measurement) :
    (Octopus.store_series series rd metrics).length = metrics.length ∧
    Octopus.store_series series rd [] = [] :=
  ⟨List.length_map metrics (Octopus.measurement_point series rd), rfl⟩

/-- C10: every emitted point fields dict contains consumption, cost and total_cost computed from the static tariff, and when the agile schedule is non-empty the agile_rate, agile_cost and agile_total_cost fields are present on the same point as well, with the static fields unchanged. -/
theorem C10_static_and_agile_fields (series : String) (rd : RateData)
    (m : Measurement) :
    ((Octopus.fields_for_measurement series rd m).lookup "consumption" =
        some m.consumption ∧
      (Octopus.fields_for_measurement series rd m).lookup "cost" =
        some (m.consumption *
          rateValue rd (Octopus.active_rate_field series rd m)) ∧
      (Octopus.fields_for_measurement series rd m).lookup "total_cost" =
        some (m.consumption * rateValue rd (Octopus.active_rate_field series rd m)
          + rd.standing_charge / 48)) ∧
    (rd.agile_unit_rates ≠ [] →
      (Octopus.fields_for_measurement series rd m).lookup "agile_rate" =
        some (dictGet (agileRatesTo rd.agile_unit_rates)
          (iso8601 (parse m.interval_end))
          (rateValue rd (Octopus.active_rate_field series rd m))) ∧
      (Octopus.fields_for_measurement series rd m).lookup "agile_cost" =
        some (dictGet (agileRatesTo rd.agile_unit_rates)
          (iso8601 (parse m.interval_end))
          (rateValue rd (Octopus.active_rate_field series rd m)) *
            m.consumption) ∧
      (Octopus.fields_for_measurement series rd m).lookup "agile_total_cost" =
        some (dictGet (agileRatesTo rd.agile_unit_rates)
          (iso8601 (parse m.interval_end))
          (rateValue rd (Octopus.active_rate_field series rd m)) * m.consumption
          + rd.agile_standing_charge / 48)) :=
  ⟨⟨fields_lookup_consumption series rd m, fields_lookup_cost series rd m,
    fields_lookup_total_cost series rd m⟩,
   fun h => ⟨fields_lookup_agile_rate series rd m h,
    fields_lookup_agile_cost series rd m h,
    fields_lookup_agile_total_cost series rd m h⟩⟩

/-- C10 witness: the three agile fields of a concrete point over a non-empty schedule. -/
theorem C10_static_and_agile_fields_witness :
    (Octopus.fields_for_measurement "electricity" rdAgileCanon mHalfHour).lookup
        "agile_rate" =
      some (dictGet (agileRatesTo rdAgileCanon.agile_unit_rates)
        (iso8601 (parse mHalfHour.interval_end))
        (rateValue rdAgileCanon
          (Octopus.active_rate_field "electricity" rdAgileCanon mHalfHour))) ∧
    (Octopus.fields_for_measurement "electricity" rdAgileCanon mHalfHour).lookup
        "agile_cost" =
      some (dictGet (agileRatesTo rdAgileCanon.agile_unit_rates)
        (iso8601 (parse mHalfHour.interval_end))
        (rateValue rdAgileCanon
          (Octopus.active_rate_field "electricity" rdAgileCanon mHalfHour)) *
        mHalfHour.consumption) ∧
    (Octopus.fields_for_measurement "electricity" rdAgileCanon mHalfHour).lookup
        "agile_total_cost" =
      some (dictGet (agileRatesTo rdAgileCanon.agile_unit_rates)
        (iso8601 (parse mHalfHour.interval_end))
        (rateValue rdAgileCanon
          (Octopus.active_rate_field "electricity" rdAgileCanon mHalfHour)) *
        mHalfHour.consumption + rdAgileCanon.agile_standing_charge / 48) :=
  (C10_static_and_agile_fields "electricity" rdAgileCanon mHalfHour).2 (by decide)
